import Mathlib

/-!
# Verification of the snowflake identifier generator

Shallow embedding of the snowflake generator package (Go).  The repository
contains two variants of the generator:

* `src/snowflake_generator.go` keeps the last-used timestamp and the sequence
  counter in two separate atomic words (`lts` and `seq`); here: namespace
  `TwoWord`.
* `src/unnamed/part_001` packs both into a single atomic state word
  (`state = (timestamp << 12) | sequence`); here: namespace `Packed`.

Machine integers (Go `int64`) are modelled as `ℤ`; the bitwise operators
`<<`, `>>`, `|`, `&` of Go on `int64` agree with `Int.shiftLeft` (Mathlib's
`<<<` on `ℤ`), arithmetic `Int.shiftRight`, `Int.lor` and `Int.land` on the
two's-complement view of `ℤ` for all values that fit in 64 bits; none of the
quantities handled by the program approach `2 ^ 63` in the regimes studied
here, so no explicit wrap-around is modelled.

The wall clock (`time.Now().UnixMilli()`) is modelled as a list of successive
millisecond readings, one consumed at each point where the code reads the
clock.  A call that runs out of modelled readings evaluates to `none`; this is
an artefact of finitising the clock, not a behaviour of the code.  Serialized
(single-caller) executions make every compare-and-swap succeed, since the
compared location cannot change between the load and the CAS; the serialized
embeddings below therefore replace each CAS by a plain update.  The
interleaved behaviour of the two-word variant is modelled separately and
faithfully, one shared-memory access per step, in namespace `TwoWordConc`.
-/

deriving instance DecidableEq for Except

namespace Snowflake

/-- Epoch preset, `src/snowflake_generator.go` lines 11-14 (identical in
`src/unnamed/part_001`): `TwitterEpoch int64 = 1288834974657`. -/
def TwitterEpoch : ℤ := 1288834974657

/-- Epoch preset, `src/snowflake_generator.go` lines 11-14 (identical in
`src/unnamed/part_001`): `DiscordEpoch int64 = 1420070400000`. -/
def DiscordEpoch : ℤ := 1420070400000

/-- `snowflakeTimestampBits = 41`, `src/snowflake_generator.go` line 17. -/
def snowflakeTimestampBits : ℤ := 41

/-- `snowflakeNodeIdBits = 10`, `src/snowflake_generator.go` line 18. -/
def snowflakeNodeIdBits : ℤ := 10

/-- `snowflakeSequenceBits = 12`, `src/snowflake_generator.go` line 19. -/
def snowflakeSequenceBits : ℤ := 12

/-- `snowflakeNodeIdShift = snowflakeSequenceBits`,
`src/snowflake_generator.go` line 21. -/
def snowflakeNodeIdShift : ℤ := snowflakeSequenceBits

/-- `snowflakeTimestampShift = snowflakeSequenceBits + snowflakeNodeIdBits`,
`src/snowflake_generator.go` line 22. -/
def snowflakeTimestampShift : ℤ := snowflakeSequenceBits + snowflakeNodeIdBits

/-- `snowflakeSequenceMask = (1 << snowflakeSequenceBits) - 1`,
`src/snowflake_generator.go` line 23. -/
def snowflakeSequenceMask : ℤ := (1 <<< snowflakeSequenceBits) - 1

/-- The two error values of the package, `src/snowflake_generator.go`
lines 26-29: `ErrInvalidNodeId` and `ErrGenerationClockRollback`. -/
inductive GenError : Type where
  | invalidNodeId : GenError
  | clockRollback : GenError
deriving DecidableEq, Repr

/-- The pair of values returned by `Generate` (Go returns
`(Snowflake, error)`): the identifier and the error slot. -/
structure GenReturn : Type where
  id : ℤ
  err : Option GenError
deriving DecidableEq, Repr

/-- Modelled from the spec: identifier codec accessor for the relative
timestamp field (bits 22 and above); the codec source file is not under
`src/`, so this follows the spec's field table (spec section 3) and the
accessor `GetTimestampRaw` shown in the repository README. -/
def GetTimestampRaw (id : ℤ) : ℤ := id >>> snowflakeTimestampShift

/-- Modelled from the spec: identifier codec accessor for the sequence field
(bits 0-11), following the spec's field table and the README's `GetSeq`. -/
def GetSeq (id : ℤ) : ℤ := Int.land id snowflakeSequenceMask

/-- Modelled from the spec: identifier codec accessor for the node id field
(bits 12-21), following the spec's field table and the README's
`GetNodeId`. -/
def GetNodeId (id : ℤ) : ℤ :=
  Int.land (id >>> snowflakeNodeIdShift) ((1 <<< snowflakeNodeIdBits) - 1)

namespace TwoWord

/-- Generator state of `src/snowflake_generator.go` lines 31-41: epoch,
pre-shifted node id, and the two atomic words `lts` (last timestamp) and
`seq`.  The `st time.Time` field is omitted: it is written once and never
read. -/
structure SnowflakeGenerator : Type where
  tsepoch : ℤ
  shiftedNid : ℤ
  lts : ℤ
  seq : ℤ
deriving DecidableEq, Repr

/-- `NewGenerator`, `src/snowflake_generator.go` lines 43-55: rejects
`nodeId >= 1 << snowflakeNodeIdBits`, otherwise returns a generator with the
node id pre-shifted and both atomic words zeroed. -/
def NewGenerator (nodeId timestampEpoch : ℤ) :
    Except GenError SnowflakeGenerator :=
  if (1 <<< snowflakeNodeIdBits : ℤ) ≤ nodeId then
    Except.error GenError.invalidNodeId
  else
    Except.ok
      { tsepoch := timestampEpoch
        shiftedNid := nodeId <<< snowflakeNodeIdShift
        lts := 0
        seq := 0 }

/-- `Generate`, `src/snowflake_generator.go` lines 67-101, serialized.  One
clock reading is consumed per loop iteration.  On `relativeTs < lastTs` the
code returns `0, ErrGenerationClockRollback` at once.  On sequence
exhaustion it sleeps one millisecond and retries (`continue`), consuming the
next reading.  In a serialized run both CAS operations always succeed, so
the CAS on `seq` (line 85) becomes `seq := seq + 1` and the CAS on `lts`
(line 92) followed by the store of `seq` (line 95) becomes
`lts := relativeTs; seq := 0`. -/
def Generate (g : SnowflakeGenerator) :
    List ℤ → Option (GenReturn × SnowflakeGenerator)
  | [] => none
  | now :: rest =>
    let relativeTs := now - g.tsepoch
    if relativeTs < g.lts then
      some ({ id := 0, err := some GenError.clockRollback }, g)
    else if relativeTs = g.lts then
      if g.seq = snowflakeSequenceMask then
        Generate g rest
      else
        some
          ({ id := Int.lor
                (Int.lor (relativeTs <<< snowflakeTimestampShift) g.shiftedNid)
                (g.seq + 1)
             err := none },
           { g with seq := g.seq + 1 })
    else
      some
        ({ id := Int.lor
              (Int.lor (relativeTs <<< snowflakeTimestampShift) g.shiftedNid)
              0
           err := none },
         { g with lts := relativeTs, seq := 0 })

end TwoWord

namespace Packed

/-- Generator state of `src/unnamed/part_001` lines 31-36: epoch, pre-shifted
node id, and the single packed atomic word
`state = (timestamp << 12) | sequence`. -/
structure SnowflakeGenerator : Type where
  tsepoch : ℤ
  shiftedNid : ℤ
  state : ℤ
deriving DecidableEq, Repr

/-- `NewGenerator`, `src/unnamed/part_001` lines 38-47: rejects
`nodeId >= 1 << snowflakeNodeIdBits`, otherwise returns a generator with the
node id pre-shifted and the state word zero-initialised. -/
def NewGenerator (nodeId timestampEpoch : ℤ) :
    Except GenError SnowflakeGenerator :=
  if (1 <<< snowflakeNodeIdBits : ℤ) ≤ nodeId then
    Except.error GenError.invalidNodeId
  else
    Except.ok
      { tsepoch := timestampEpoch
        shiftedNid := nodeId <<< snowflakeNodeIdShift
        state := 0 }

/-- The timestamp half of a packed state word:
`prevTs := prev >> snowflakeSequenceBits`, `src/unnamed/part_001` line 64. -/
def stateTs (prev : ℤ) : ℤ := prev >>> snowflakeSequenceBits

/-- The sequence half of a packed state word:
`prevSeq := prev & snowflakeSequenceMask`, `src/unnamed/part_001` line 65. -/
def stateSeq (prev : ℤ) : ℤ := Int.land prev snowflakeSequenceMask

/-- Number of poll iterations modelling the clock-rollback tolerance loop of
`src/unnamed/part_001` lines 71-79: the deadline is 15 milliseconds away and
every non-breaking iteration sleeps 1 millisecond, so the loop body runs at
most about 15 times; each iteration re-reads the clock, consuming one
modelled reading. -/
def rollbackWaitPolls : ℕ := 15

/-- The clock-rollback wait loop of `src/unnamed/part_001` lines 71-79: keep
re-reading the clock (one reading per iteration, at most `fuel` iterations)
until `relativeTs >= prevTs` or the deadline passes; returns the last value
of `relativeTs` together with the readings not yet consumed.  Running out of
modelled readings gives `none`. -/
def rollbackWait (tsepoch prevTs : ℤ) :
    ℕ → ℤ → List ℤ → Option (ℤ × List ℤ)
  | 0, relativeTs, rest => some (relativeTs, rest)
  | _ + 1, _, [] => none
  | fuel + 1, _, now :: rest =>
    let relativeTs := now - tsepoch
    if prevTs ≤ relativeTs then some (relativeTs, rest)
    else rollbackWait tsepoch prevTs fuel relativeTs rest

/-- One or more iterations of the `Generate` retry loop of
`src/unnamed/part_001` lines 59-104, serialized, with an explicit iteration
budget `fuel` (structural recursion; `Generate` below supplies a budget large
enough for the readings provided).  Each iteration reads the clock, decodes
the packed state, runs the rollback wait if `relativeTs < prevTs`, fails with
the rollback error if the clock has still not caught up, retries after a
1 ms sleep on sequence exhaustion, and otherwise installs the new packed
state (the CAS of line 99, which always succeeds serialized) and returns the
packed identifier of line 100. -/
def generateLoop (g : SnowflakeGenerator) :
    ℕ → List ℤ → Option (GenReturn × SnowflakeGenerator)
  | 0, _ => none
  | _ + 1, [] => none
  | fuel + 1, now :: rest =>
    let prev := g.state
    let prevTs := stateTs prev
    let prevSeq := stateSeq prev
    match
      (if now - g.tsepoch < prevTs then
        rollbackWait g.tsepoch prevTs rollbackWaitPolls (now - g.tsepoch) rest
      else some (now - g.tsepoch, rest)) with
    | none => none
    | some (relativeTs, rest') =>
      if relativeTs < prevTs then
        some ({ id := 0, err := some GenError.clockRollback }, g)
      else if relativeTs = prevTs then
        if prevSeq = snowflakeSequenceMask then
          generateLoop g fuel rest'
        else
          some
            ({ id := Int.lor
                  (Int.lor (prevTs <<< snowflakeTimestampShift) g.shiftedNid)
                  (prevSeq + 1)
               err := none },
             { g with
                state := Int.lor (prevTs <<< snowflakeSequenceBits)
                  (prevSeq + 1) })
      else
        some
          ({ id := Int.lor
                (Int.lor (relativeTs <<< snowflakeTimestampShift) g.shiftedNid)
                0
             err := none },
           { g with
              state := Int.lor (relativeTs <<< snowflakeSequenceBits) 0 })

/-- `Generate`, `src/unnamed/part_001` lines 59-104, serialized: run the
retry loop with an iteration budget covering all supplied clock readings. -/
def Generate (g : SnowflakeGenerator) (clocks : List ℤ) :
    Option (GenReturn × SnowflakeGenerator) :=
  generateLoop g clocks.length clocks

end Packed

/-- The identifier packing expression shared by both `Generate` variants:
`(ts << snowflakeTimestampShift) | shiftedNid | seq`
(`src/snowflake_generator.go` line 98, `src/unnamed/part_001` line 100). -/
def packId (ts shiftedNid seq : ℤ) : ℤ :=
  Int.lor (Int.lor (ts <<< snowflakeTimestampShift) shiftedNid) seq

/-- The state packing expression of the packed variant:
`newState := (nextTs << snowflakeSequenceBits) | nextSeq`
(`src/unnamed/part_001` line 97). -/
def packState (ts seq : ℤ) : ℤ :=
  Int.lor (ts <<< snowflakeSequenceBits) seq

/-- Reachable-state invariant of the two-word generator: the recorded
timestamp and sequence are non-negative and the sequence fits in 12 bits.
It holds for a freshly constructed generator and is preserved by
`TwoWord.Generate`. -/
def TwoWord.Inv (g : TwoWord.SnowflakeGenerator) : Prop :=
  0 ≤ g.lts ∧ 0 ≤ g.seq ∧ g.seq ≤ 4095

/-- Reachable-state invariant of the packed generator: the state word packs a
non-negative timestamp and a 12-bit sequence. -/
def Packed.Inv (g : Packed.SnowflakeGenerator) : Prop :=
  ∃ t s : ℤ, 0 ≤ t ∧ 0 ≤ s ∧ s ≤ 4095 ∧ g.state = t * 4096 + s

/-- A serialized sequence of `Generate` calls on one two-word generator
instance, each call given its own clock readings; collects the results and
the post-state of each call.  Stops at the first call that runs out of
modelled clock readings. -/
def TwoWord.runGenerate (g : TwoWord.SnowflakeGenerator) :
    List (List ℤ) → List (GenReturn × TwoWord.SnowflakeGenerator)
  | [] => []
  | cs :: css =>
    match TwoWord.Generate g cs with
    | none => []
    | some (r, g') => (r, g') :: TwoWord.runGenerate g' css

/-- A serialized sequence of `Generate` calls on one packed generator
instance; see `TwoWord.runGenerate`. -/
def Packed.runGenerate (g : Packed.SnowflakeGenerator) :
    List (List ℤ) → List (GenReturn × Packed.SnowflakeGenerator)
  | [] => []
  | cs :: css =>
    match Packed.Generate g cs with
    | none => []
    | some (r, g') => (r, g') :: Packed.runGenerate g' css

/-- The `(relative timestamp, sequence)` pairs of the successfully generated
identifiers of a serialized call sequence, in call order, decoded from the
returned identifiers by the codec accessors. -/
def successPairs {α : Type} (l : List (GenReturn × α)) : List (ℤ × ℤ) :=
  l.filterMap fun p =>
    if p.1.err = none then some (GetTimestampRaw p.1.id, GetSeq p.1.id)
    else none

/-- One step of the lexicographic order on `(timestamp, sequence)` pairs as
the spec states it: either the timestamp is unchanged and the sequence grows
by exactly one, or the timestamp strictly grows. -/
def lexStep (a b : ℤ × ℤ) : Prop :=
  (b.1 = a.1 ∧ b.2 = a.2 + 1) ∨ a.1 < b.1

/-- Correspondence between a two-word generator state and a packed generator
state: same configuration, and the packed state word holds exactly the
two-word pair `(lts, seq)` in its `(timestamp << 12) | sequence` layout. -/
def Corr (tw : TwoWord.SnowflakeGenerator) (pk : Packed.SnowflakeGenerator) :
    Prop :=
  tw.tsepoch = pk.tsepoch ∧ tw.shiftedNid = pk.shiftedNid ∧
    pk.state = tw.lts * 4096 + tw.seq

namespace TwoWordConc

/-!
Interleaved small-step model of `TwoWord.Generate`
(`src/snowflake_generator.go` lines 67-101) for concurrent callers.  Each
scheduled step performs at most one access to the shared atomic words `lts`
and `seq`; between steps of one thread, arbitrarily many steps of other
threads may run.  Reading the clock touches no shared state, so it is folded
into the same step as the load of `lts`; the pure branch decisions of lines
72-92 are folded into the step that performs the subsequent CAS, again
because they touch no shared state.  Every run of this machine is therefore a
possible interleaving of the Go code's atomic operations.
-/

/-- Program counter of one thread executing `Generate`, each constructor
holding the thread's local variables.

* `start`: about to begin a loop iteration: read the clock and load `lts`
  (line 68, 71);
* `loadSeq relativeTs lastTs`: about to load `seq` (line 72);
* `update relativeTs lastTs seq`: about to branch (lines 74-92) and perform
  the CAS the taken branch requires;
* `storeSeq relativeTs`: won the CAS on `lts` (line 92); about to store
  `seq := 0` (line 95) and return;
* `done`: the call returned. -/
inductive TPC : Type where
  | start : TPC
  | loadSeq : ℤ → ℤ → TPC
  | update : ℤ → ℤ → ℤ → TPC
  | storeSeq : ℤ → TPC
  | done : GenReturn → TPC
deriving DecidableEq, Repr

/-- One thread: its program counter and the clock readings its future
`time.Now()` calls will observe. -/
structure Thread : Type where
  pc : TPC
  clocks : List ℤ
deriving DecidableEq, Repr

/-- The whole system: the generator's configuration and shared atomic words,
plus the threads. -/
structure Sys : Type where
  tsepoch : ℤ
  shiftedNid : ℤ
  lts : ℤ
  seq : ℤ
  threads : List Thread
deriving DecidableEq, Repr

/-- One atomic step of a single thread of `TwoWord.Generate`; returns the
updated shared state and thread.  A thread at `start` with no readings left
is stuck; a `done` thread does nothing. -/
def stepThread (s : Sys) (t : Thread) : Sys × Thread :=
  match t.pc with
  | TPC.start =>
    match t.clocks with
    | [] => (s, t)
    | now :: cs => (s, { pc := TPC.loadSeq (now - s.tsepoch) s.lts, clocks := cs })
  | TPC.loadSeq relativeTs lastTs =>
    (s, { t with pc := TPC.update relativeTs lastTs s.seq })
  | TPC.update relativeTs lastTs seq =>
    if relativeTs < lastTs then
      (s, { t with pc := TPC.done { id := 0, err := some GenError.clockRollback } })
    else if relativeTs = lastTs then
      if seq = snowflakeSequenceMask then
        (s, { t with pc := TPC.start })
      else if s.seq = seq then
        ({ s with seq := seq + 1 },
         { t with pc := TPC.done { id := packId relativeTs s.shiftedNid (seq + 1), err := none } })
      else
        (s, { t with pc := TPC.start })
    else
      if s.lts = lastTs then
        ({ s with lts := relativeTs }, { t with pc := TPC.storeSeq relativeTs })
      else
        (s, { t with pc := TPC.start })
  | TPC.storeSeq relativeTs =>
    ({ s with seq := 0 },
     { t with pc := TPC.done { id := packId relativeTs s.shiftedNid 0, err := none } })
  | TPC.done _ => (s, t)

/-- Let thread `i` take one atomic step (no-op on an out-of-range index). -/
def step (s : Sys) (i : ℕ) : Sys :=
  match s.threads[i]? with
  | none => s
  | some t =>
    let st := stepThread s t
    { st.1 with threads := st.1.threads.set i st.2 }

/-- Run a schedule: the list names, in order, which thread takes the next
atomic step. -/
def run (s : Sys) : List ℕ → Sys
  | [] => s
  | i :: sched => run (step s i) sched

/-- The identifiers of all threads whose `Generate` call has returned
successfully. -/
def doneIds (s : Sys) : List ℤ :=
  s.threads.filterMap fun t =>
    match t.pc with
    | TPC.done r => if r.err = none then some r.id else none
    | _ => none

end TwoWordConc

/-!
## Bridge lemmas: bitwise packing as arithmetic

All fields handled by the generator are non-negative in the regimes the
claims quantify over, so the `or`-of-shifted-fields expressions reduce to
plain arithmetic, and the shift/mask decodings recover the fields.
-/

theorem int_lor_mul_pow_add {a b : ℤ} (k : ℕ) (ha : 0 ≤ a) (hb0 : 0 ≤ b)
    (hb : b < 2 ^ k) : Int.lor (a * 2 ^ k) b = a * 2 ^ k + b := by
  obtain ⟨A, rfl⟩ := Int.eq_ofNat_of_zero_le ha
  obtain ⟨B, rfl⟩ := Int.eq_ofNat_of_zero_le hb0
  have hBk : B < 2 ^ k := by exact_mod_cast hb
  have h1 : (A : ℤ) * 2 ^ k = ((2 ^ k * A : ℕ) : ℤ) := by push_cast; ring
  rw [h1,
    show Int.lor ((2 ^ k * A : ℕ) : ℤ) (B : ℤ) = ((2 ^ k * A ||| B : ℕ) : ℤ)
      from rfl,
    ← Nat.mul_add_lt_is_or hBk A]
  push_cast; ring

theorem int_shiftRight_mul_pow_add {a b : ℤ} (k : ℕ) (ha : 0 ≤ a)
    (hb0 : 0 ≤ b) (hb : b < 2 ^ k) : (a * 2 ^ k + b) >>> ((k : ℕ) : ℤ) = a := by
  obtain ⟨A, rfl⟩ := Int.eq_ofNat_of_zero_le ha
  obtain ⟨B, rfl⟩ := Int.eq_ofNat_of_zero_le hb0
  have hBk : B < 2 ^ k := by exact_mod_cast hb
  have h1 : (A : ℤ) * 2 ^ k + B = ((A * 2 ^ k + B : ℕ) : ℤ) := by push_cast; ring
  rw [h1, Int.shiftRight_coe_nat, Nat.shiftRight_eq_div_pow]
  have h2 : (A * 2 ^ k + B) / 2 ^ k = A := by
    rw [mul_comm A (2 ^ k), Nat.mul_add_div (Nat.pos_pow_of_pos k (by norm_num)),
      Nat.div_eq_of_lt hBk]
    omega
  rw [h2]

theorem int_land_mul_pow_add {a b : ℤ} (k : ℕ) (ha : 0 ≤ a) (hb0 : 0 ≤ b)
    (hb : b < 2 ^ k) : Int.land (a * 2 ^ k + b) ((2 : ℤ) ^ k - 1) = b := by
  obtain ⟨A, rfl⟩ := Int.eq_ofNat_of_zero_le ha
  obtain ⟨B, rfl⟩ := Int.eq_ofNat_of_zero_le hb0
  have hBk : B < 2 ^ k := by exact_mod_cast hb
  have h1 : (A : ℤ) * 2 ^ k + B = ((A * 2 ^ k + B : ℕ) : ℤ) := by push_cast; ring
  have h2 : ((2 : ℤ) ^ k - 1) = ((2 ^ k - 1 : ℕ) : ℤ) := by
    have : (1 : ℕ) ≤ 2 ^ k := Nat.one_le_two_pow
    push_cast [this]; ring
  rw [h1, h2,
    show Int.land ((A * 2 ^ k + B : ℕ) : ℤ) ((2 ^ k - 1 : ℕ) : ℤ)
        = ((A * 2 ^ k + B &&& 2 ^ k - 1 : ℕ) : ℤ) from rfl,
    Nat.and_pow_two_sub_one_eq_mod, mul_comm A (2 ^ k), Nat.mul_add_mod,
    Nat.mod_eq_of_lt hBk]

theorem shiftTs_eq (t : ℤ) : t <<< snowflakeTimestampShift = t * 2 ^ 22 := by
  rw [show snowflakeTimestampShift = ((22 : ℕ) : ℤ) from rfl,
    Int.shiftLeft_eq_mul_pow]
  norm_num

theorem shiftNid_eq (n : ℤ) : n <<< snowflakeNodeIdShift = n * 2 ^ 12 := by
  rw [show snowflakeNodeIdShift = ((12 : ℕ) : ℤ) from rfl,
    Int.shiftLeft_eq_mul_pow]
  norm_num

theorem shiftSeqBits_eq (t : ℤ) : t <<< snowflakeSequenceBits = t * 2 ^ 12 := by
  rw [show snowflakeSequenceBits = ((12 : ℕ) : ℤ) from rfl,
    Int.shiftLeft_eq_mul_pow]
  norm_num

theorem mask_eq : snowflakeSequenceMask = 2 ^ 12 - 1 := by decide

theorem mask_eq' : snowflakeSequenceMask = 4095 := by decide

theorem packId_eq {t n s : ℤ} (ht : 0 ≤ t) (hn0 : 0 ≤ n) (hn : n < 1024)
    (hs0 : 0 ≤ s) (hs : s < 4096) :
    packId t (n <<< snowflakeNodeIdShift) s = t * 2 ^ 22 + n * 2 ^ 12 + s := by
  unfold packId
  rw [shiftTs_eq, shiftNid_eq]
  have hn12 : (0 : ℤ) ≤ n * 2 ^ 12 := by positivity
  have hn22 : n * 2 ^ 12 < 2 ^ 22 := by nlinarith
  rw [int_lor_mul_pow_add 22 ht hn12 hn22]
  have h2 : t * 2 ^ 22 + n * 2 ^ 12 = (t * 2 ^ 10 + n) * 2 ^ 12 := by ring
  have ha : (0 : ℤ) ≤ t * 2 ^ 10 + n := by nlinarith
  rw [h2, int_lor_mul_pow_add 12 ha hs0 (by omega)]

theorem packState_eq {t s : ℤ} (ht : 0 ≤ t) (hs0 : 0 ≤ s) (hs : s < 4096) :
    packState t s = t * 4096 + s := by
  unfold packState
  rw [shiftSeqBits_eq, int_lor_mul_pow_add 12 ht hs0 (by omega)]
  norm_num

theorem stateTs_eq {t s : ℤ} (ht : 0 ≤ t) (hs0 : 0 ≤ s) (hs : s < 4096) :
    Packed.stateTs (t * 4096 + s) = t := by
  unfold Packed.stateTs
  rw [show snowflakeSequenceBits = ((12 : ℕ) : ℤ) from rfl,
    show t * 4096 + s = t * 2 ^ 12 + s by norm_num]
  exact int_shiftRight_mul_pow_add 12 ht hs0 (by omega)

theorem stateSeq_eq {t s : ℤ} (ht : 0 ≤ t) (hs0 : 0 ≤ s) (hs : s < 4096) :
    Packed.stateSeq (t * 4096 + s) = s := by
  unfold Packed.stateSeq
  rw [mask_eq, show t * 4096 + s = t * 2 ^ 12 + s by norm_num]
  exact int_land_mul_pow_add 12 ht hs0 (by omega)

theorem GetTimestampRaw_packId {t n s : ℤ} (ht : 0 ≤ t) (hn0 : 0 ≤ n)
    (hn : n < 1024) (hs0 : 0 ≤ s) (hs : s < 4096) :
    GetTimestampRaw (packId t (n <<< snowflakeNodeIdShift) s) = t := by
  rw [packId_eq ht hn0 hn hs0 hs]
  unfold GetTimestampRaw
  rw [show snowflakeTimestampShift = ((22 : ℕ) : ℤ) from rfl,
    show t * 2 ^ 22 + n * 2 ^ 12 + s = t * 2 ^ 22 + (n * 2 ^ 12 + s) by ring]
  exact int_shiftRight_mul_pow_add 22 ht (by positivity) (by nlinarith)

theorem GetSeq_packId {t n s : ℤ} (ht : 0 ≤ t) (hn0 : 0 ≤ n) (hn : n < 1024)
    (hs0 : 0 ≤ s) (hs : s < 4096) :
    GetSeq (packId t (n <<< snowflakeNodeIdShift) s) = s := by
  rw [packId_eq ht hn0 hn hs0 hs]
  unfold GetSeq
  rw [mask_eq,
    show t * 2 ^ 22 + n * 2 ^ 12 + s = (t * 2 ^ 10 + n) * 2 ^ 12 + s by ring]
  exact int_land_mul_pow_add 12 (by nlinarith) hs0 (by omega)

theorem GetNodeId_packId {t n s : ℤ} (ht : 0 ≤ t) (hn0 : 0 ≤ n) (hn : n < 1024)
    (hs0 : 0 ≤ s) (hs : s < 4096) :
    GetNodeId (packId t (n <<< snowflakeNodeIdShift) s) = n := by
  rw [packId_eq ht hn0 hn hs0 hs]
  unfold GetNodeId
  rw [show snowflakeNodeIdShift = ((12 : ℕ) : ℤ) from rfl,
    show t * 2 ^ 22 + n * 2 ^ 12 + s = (t * 2 ^ 10 + n) * 2 ^ 12 + s by ring,
    int_shiftRight_mul_pow_add 12 (by nlinarith) hs0 (by omega),
    show ((1 <<< snowflakeNodeIdBits) - 1 : ℤ) = (2 : ℤ) ^ 10 - 1 by decide]
  exact int_land_mul_pow_add 10 ht hn0 (by omega)

/-!
## Characterization of serialized calls
-/

theorem TwoWord.generate_spec (g : TwoWord.SnowflakeGenerator) :
    ∀ (clocks : List ℤ) (r : GenReturn) (g' : TwoWord.SnowflakeGenerator),
      TwoWord.Generate g clocks = some (r, g') →
      (r = { id := 0, err := some GenError.clockRollback } ∧ g' = g) ∨
      (r.err = none ∧ g'.tsepoch = g.tsepoch ∧ g'.shiftedNid = g.shiftedNid ∧
        ((g.seq ≠ snowflakeSequenceMask ∧
            r.id = packId g.lts g.shiftedNid (g.seq + 1) ∧
            g'.lts = g.lts ∧ g'.seq = g.seq + 1) ∨
          (∃ now ∈ clocks, g.lts < now - g.tsepoch ∧
            r.id = packId (now - g.tsepoch) g.shiftedNid 0 ∧
            g'.lts = now - g.tsepoch ∧ g'.seq = 0))) := by
  intro clocks
  induction clocks with
  | nil => intro r g' h; simp [TwoWord.Generate] at h
  | cons now rest ih =>
    intro r g' h
    simp only [TwoWord.Generate] at h
    split_ifs at h with h1 h2 h3
    · simp only [Option.some.injEq, Prod.mk.injEq] at h
      exact Or.inl ⟨h.1.symm, h.2.symm⟩
    · rcases ih r g' h with hl | ⟨he, hte, hnb, hcase⟩
      · exact Or.inl hl
      · refine Or.inr ⟨he, hte, hnb, ?_⟩
        rcases hcase with hsame | ⟨now', hmem, hrest⟩
        · exact Or.inl hsame
        · exact Or.inr ⟨now', List.mem_cons_of_mem _ hmem, hrest⟩
    · simp only [Option.some.injEq, Prod.mk.injEq] at h
      obtain ⟨hr, hg⟩ := h
      subst hg
      refine Or.inr ⟨by rw [← hr], rfl, rfl, Or.inl ⟨h3, ?_, rfl, rfl⟩⟩
      rw [← hr]
      simp only [packId, h2]
    · simp only [Option.some.injEq, Prod.mk.injEq] at h
      obtain ⟨hr, hg⟩ := h
      subst hg
      refine Or.inr ⟨by rw [← hr], rfl, rfl,
        Or.inr ⟨now, List.mem_cons_self _ _, by omega, ?_, rfl, rfl⟩⟩
      rw [← hr]
      simp only [packId]

theorem TwoWord.generate_inv_tw {g g' : TwoWord.SnowflakeGenerator}
    {clocks : List ℤ} {r : GenReturn} (hinv : TwoWord.Inv g)
    (h : TwoWord.Generate g clocks = some (r, g')) : TwoWord.Inv g' := by
  obtain ⟨h1, h2, h3⟩ := hinv
  rcases TwoWord.generate_spec g clocks r g' h with ⟨_, rfl⟩ |
    ⟨_, _, _, ⟨hm, _, hl, hs⟩ | ⟨now, _, hlt, _, hl, hs⟩⟩
  · exact ⟨h1, h2, h3⟩
  · rw [mask_eq'] at hm
    exact ⟨by omega, by omega, by omega⟩
  · exact ⟨by omega, by omega, by omega⟩

theorem Packed.rollbackWait_spec (e p : ℤ) :
    ∀ (fuel : ℕ) (rel : ℤ) (rest : List ℤ) (rel' : ℤ) (rest' : List ℤ),
      Packed.rollbackWait e p fuel rel rest = some (rel', rest') →
      (∀ x ∈ rest', x ∈ rest) ∧
        (rel' = rel ∨ ∃ now ∈ rest, rel' = now - e) := by
  intro fuel
  induction fuel with
  | zero =>
    intro rel rest rel' rest' h
    simp only [Packed.rollbackWait, Option.some.injEq, Prod.mk.injEq] at h
    refine ⟨?_, Or.inl h.1.symm⟩
    intro x hx
    rw [← h.2] at hx
    exact hx
  | succ n ih =>
    intro rel rest rel' rest' h
    match rest with
    | [] => simp [Packed.rollbackWait] at h
    | now :: rest₀ =>
      simp only [Packed.rollbackWait] at h
      split_ifs at h with h1
      · simp only [Option.some.injEq, Prod.mk.injEq] at h
        refine ⟨?_, Or.inr ⟨now, List.mem_cons_self _ _, h.1.symm⟩⟩
        intro x hx
        rw [← h.2] at hx
        exact List.mem_cons_of_mem _ hx
      · obtain ⟨hsub, hrel⟩ := ih (now - e) rest₀ rel' rest' h
        refine ⟨fun x hx => List.mem_cons_of_mem _ (hsub x hx), ?_⟩
        rcases hrel with rfl | ⟨now', hmem, rfl⟩
        · exact Or.inr ⟨now, List.mem_cons_self _ _, rfl⟩
        · exact Or.inr ⟨now', List.mem_cons_of_mem _ hmem, rfl⟩

theorem Packed.generateLoop_spec (g : Packed.SnowflakeGenerator) :
    ∀ (fuel : ℕ) (clocks : List ℤ) (r : GenReturn)
      (g' : Packed.SnowflakeGenerator),
      Packed.generateLoop g fuel clocks = some (r, g') →
      (r = { id := 0, err := some GenError.clockRollback } ∧ g' = g) ∨
      (r.err = none ∧ g'.tsepoch = g.tsepoch ∧ g'.shiftedNid = g.shiftedNid ∧
        ((Packed.stateSeq g.state ≠ snowflakeSequenceMask ∧
            r.id = packId (Packed.stateTs g.state) g.shiftedNid
              (Packed.stateSeq g.state + 1) ∧
            g'.state = packState (Packed.stateTs g.state)
              (Packed.stateSeq g.state + 1)) ∨
          (∃ now ∈ clocks, Packed.stateTs g.state < now - g.tsepoch ∧
            r.id = packId (now - g.tsepoch) g.shiftedNid 0 ∧
            g'.state = packState (now - g.tsepoch) 0))) := by
  intro fuel
  induction fuel with
  | zero => intro clocks r g' h; simp [Packed.generateLoop] at h
  | succ n ih =>
    intro clocks r g' h
    match clocks with
    | [] => simp [Packed.generateLoop] at h
    | now :: rest =>
      simp only [Packed.generateLoop] at h
      split at h
      · exact absurd h (by simp)
      · rename_i relativeTs rest' heq
        have hprov : (∀ x ∈ rest', x ∈ now :: rest) ∧
            (relativeTs = now - g.tsepoch ∨
              ∃ c ∈ now :: rest, relativeTs = c - g.tsepoch) := by
          split_ifs at heq with hroll
          · obtain ⟨hsub, hrel⟩ :=
              Packed.rollbackWait_spec g.tsepoch (Packed.stateTs g.state)
                Packed.rollbackWaitPolls (now - g.tsepoch) rest relativeTs
                rest' heq
            refine ⟨fun x hx => List.mem_cons_of_mem _ (hsub x hx), ?_⟩
            rcases hrel with h' | ⟨c, hmem, h'⟩
            · exact Or.inl h'
            · exact Or.inr ⟨c, List.mem_cons_of_mem _ hmem, h'⟩
          · simp only [Option.some.injEq, Prod.mk.injEq] at heq
            refine ⟨?_, Or.inl heq.1.symm⟩
            intro x hx
            rw [← heq.2] at hx
            exact List.mem_cons_of_mem _ hx
        split_ifs at h with h1 h2 h3
        · simp only [Option.some.injEq, Prod.mk.injEq] at h
          exact Or.inl ⟨h.1.symm, h.2.symm⟩
        · rcases ih rest' r g' h with hl | ⟨he, hte, hnb, hcase⟩
          · exact Or.inl hl
          · refine Or.inr ⟨he, hte, hnb, ?_⟩
            rcases hcase with hsame | ⟨now', hmem, hrest⟩
            · exact Or.inl hsame
            · exact Or.inr ⟨now', hprov.1 now' hmem, hrest⟩
        · simp only [Option.some.injEq, Prod.mk.injEq] at h
          obtain ⟨hr, hg⟩ := h
          subst hg
          exact Or.inr ⟨by rw [← hr], rfl, rfl,
            Or.inl ⟨h3, by rw [← hr]; rfl, rfl⟩⟩
        · have hlt : Packed.stateTs g.state < relativeTs := by omega
          simp only [Option.some.injEq, Prod.mk.injEq] at h
          obtain ⟨hr, hg⟩ := h
          subst hg
          have hrel : ∃ c ∈ now :: rest, relativeTs = c - g.tsepoch := by
            rcases hprov.2 with h' | h'
            · exact ⟨now, List.mem_cons_self _ _, h'⟩
            · exact h'
          obtain ⟨c, hmem, rfl⟩ := hrel
          exact Or.inr ⟨by rw [← hr], rfl, rfl,
            Or.inr ⟨c, hmem, hlt, by rw [← hr]; simp only [packId],
              by simp only [packState]⟩⟩

theorem Packed.Inv_decode {g : Packed.SnowflakeGenerator}
    (h : Packed.Inv g) :
    0 ≤ Packed.stateTs g.state ∧ 0 ≤ Packed.stateSeq g.state ∧
      Packed.stateSeq g.state ≤ 4095 ∧
      g.state = Packed.stateTs g.state * 4096 + Packed.stateSeq g.state := by
  obtain ⟨t, s, ht, hs0, hs, hstate⟩ := h
  rw [hstate, stateTs_eq ht hs0 (by omega), stateSeq_eq ht hs0 (by omega)]
  exact ⟨ht, hs0, hs, rfl⟩

theorem Packed.generate_inv_pk {g g' : Packed.SnowflakeGenerator}
    {clocks : List ℤ} {r : GenReturn} (hinv : Packed.Inv g)
    (h : Packed.Generate g clocks = some (r, g')) : Packed.Inv g' := by
  obtain ⟨ht, hs0, hs, _⟩ := Packed.Inv_decode hinv
  rcases Packed.generateLoop_spec g clocks.length clocks r g' h with ⟨_, rfl⟩ |
    ⟨_, _, _, ⟨hm, _, hst⟩ | ⟨now, _, hlt, _, hst⟩⟩
  · exact hinv
  · rw [mask_eq'] at hm
    refine ⟨Packed.stateTs g.state, Packed.stateSeq g.state + 1, ht, by omega,
      by omega, ?_⟩
    rw [hst, packState_eq ht (by omega) (by omega)]
  · refine ⟨now - g.tsepoch, 0, by omega, le_refl 0, by norm_num, ?_⟩
    rw [hst, packState_eq (by omega) (le_refl 0) (by norm_num)]

theorem TwoWord.generate_success_decode_tw {g g' : TwoWord.SnowflakeGenerator}
    {r : GenReturn} {clocks : List ℤ} {nodeId : ℤ}
    (hinv : TwoWord.Inv g)
    (hnid : g.shiftedNid = nodeId <<< snowflakeNodeIdShift)
    (hn0 : 0 ≤ nodeId) (hn : nodeId < 1024)
    (h : TwoWord.Generate g clocks = some (r, g')) (herr : r.err = none) :
    GetTimestampRaw r.id = g'.lts ∧ GetSeq r.id = g'.seq ∧
      GetNodeId r.id = nodeId ∧ g'.shiftedNid = g.shiftedNid ∧
      g'.tsepoch = g.tsepoch ∧
      ((g'.lts = g.lts ∧ g'.seq = g.seq + 1) ∨ (g.lts < g'.lts ∧ g'.seq = 0)) := by
  obtain ⟨h1, h2, h3⟩ := hinv
  rcases TwoWord.generate_spec g clocks r g' h with ⟨rfl, _⟩ |
    ⟨_, hte, hnb, ⟨hm, hid, hl, hs⟩ | ⟨now, _, hlt, hid, hl, hs⟩⟩
  · simp at herr
  · rw [mask_eq'] at hm
    refine ⟨?_, ?_, ?_, hnb, hte, Or.inl ⟨hl, hs⟩⟩
    · rw [hid, hnid, GetTimestampRaw_packId h1 hn0 hn (by omega) (by omega), hl]
    · rw [hid, hnid, GetSeq_packId h1 hn0 hn (by omega) (by omega), hs]
    · rw [hid, hnid, GetNodeId_packId h1 hn0 hn (by omega) (by omega)]
  · refine ⟨?_, ?_, ?_, hnb, hte, Or.inr ⟨by rw [hl]; exact hlt, hs⟩⟩
    · rw [hid, hnid,
        GetTimestampRaw_packId (by omega) hn0 hn (le_refl 0) (by norm_num), hl]
    · rw [hid, hnid, GetSeq_packId (by omega) hn0 hn (le_refl 0) (by norm_num),
        hs]
    · rw [hid, hnid, GetNodeId_packId (by omega) hn0 hn (le_refl 0) (by norm_num)]

theorem Packed.generate_success_decode_pk {g g' : Packed.SnowflakeGenerator}
    {r : GenReturn} {clocks : List ℤ} {nodeId : ℤ}
    (hinv : Packed.Inv g)
    (hnid : g.shiftedNid = nodeId <<< snowflakeNodeIdShift)
    (hn0 : 0 ≤ nodeId) (hn : nodeId < 1024)
    (h : Packed.Generate g clocks = some (r, g')) (herr : r.err = none) :
    GetTimestampRaw r.id = Packed.stateTs g'.state ∧
      GetSeq r.id = Packed.stateSeq g'.state ∧
      GetNodeId r.id = nodeId ∧ g'.shiftedNid = g.shiftedNid ∧
      g'.tsepoch = g.tsepoch ∧
      ((Packed.stateTs g'.state = Packed.stateTs g.state ∧
          Packed.stateSeq g'.state = Packed.stateSeq g.state + 1) ∨
        (Packed.stateTs g.state < Packed.stateTs g'.state ∧
          Packed.stateSeq g'.state = 0)) := by
  obtain ⟨h1, h2, h3, _⟩ := Packed.Inv_decode hinv
  rcases Packed.generateLoop_spec g clocks.length clocks r g' h with ⟨rfl, _⟩ |
    ⟨_, hte, hnb, ⟨hm, hid, hst⟩ | ⟨now, _, hlt, hid, hst⟩⟩
  · simp at herr
  · rw [mask_eq'] at hm
    have hts : Packed.stateTs g'.state = Packed.stateTs g.state := by
      rw [hst, packState_eq h1 (by omega) (by omega), stateTs_eq h1 (by omega) (by omega)]
    have hsq : Packed.stateSeq g'.state = Packed.stateSeq g.state + 1 := by
      rw [hst, packState_eq h1 (by omega) (by omega), stateSeq_eq h1 (by omega) (by omega)]
    refine ⟨?_, ?_, ?_, hnb, hte, Or.inl ⟨hts, hsq⟩⟩
    · rw [hid, hnid, GetTimestampRaw_packId h1 hn0 hn (by omega) (by omega), hts]
    · rw [hid, hnid, GetSeq_packId h1 hn0 hn (by omega) (by omega), hsq]
    · rw [hid, hnid, GetNodeId_packId h1 hn0 hn (by omega) (by omega)]
  · have hts : Packed.stateTs g'.state = now - g.tsepoch := by
      rw [hst, packState_eq (by omega) (le_refl 0) (by norm_num),
        stateTs_eq (by omega) (le_refl 0) (by norm_num)]
    have hsq : Packed.stateSeq g'.state = 0 := by
      rw [hst, packState_eq (by omega) (le_refl 0) (by norm_num),
        stateSeq_eq (by omega) (le_refl 0) (by norm_num)]
    refine ⟨?_, ?_, ?_, hnb, hte, Or.inr ⟨by rw [hts]; exact hlt, hsq⟩⟩
    · rw [hid, hnid,
        GetTimestampRaw_packId (by omega) hn0 hn (le_refl 0) (by norm_num), hts]
    · rw [hid, hnid, GetSeq_packId (by omega) hn0 hn (le_refl 0) (by norm_num),
        hsq]
    · rw [hid, hnid, GetNodeId_packId (by omega) hn0 hn (le_refl 0) (by norm_num)]

/-!
## Claim theorems
-/

/-- C10: the package supplies two named epoch presets whose values are
exactly 1288834974657 milliseconds (`TwitterEpoch`) and 1420070400000
milliseconds (`DiscordEpoch`) since the Unix epoch. -/
theorem epochPresets_values :
    TwitterEpoch = 1288834974657 ∧ DiscordEpoch = 1420070400000 :=
  ⟨rfl, rfl⟩

/-- C2: evaluation of both `NewGenerator` variants at the failing input
`nodeId = -1`.  The claim says construction fails with `InvalidNodeId`
exactly when the node id is outside `[0, 1023]`, but the code only checks
the upper bound (`nodeId >= 1 << snowflakeNodeIdBits`), so `nodeId = -1`
(outside `[0, 1023]`) is accepted and its sign-extended shift `-4096` is
stored as the pre-shifted node id, corrupting the documented bit layout.
The in-range and above-range behaviours match the claim: `1023` is accepted
with the node id pre-shifted by 12 bits and zeroed state, `1024` is
rejected. -/
theorem newGenerator_nodeId_validation_gap :
    TwoWord.NewGenerator (-1) TwitterEpoch =
      Except.ok ⟨TwitterEpoch, -4096, 0, 0⟩ ∧
    Packed.NewGenerator (-1) TwitterEpoch =
      Except.ok ⟨TwitterEpoch, -4096, 0⟩ ∧
    TwoWord.NewGenerator 1024 TwitterEpoch =
      Except.error GenError.invalidNodeId ∧
    Packed.NewGenerator 1024 TwitterEpoch =
      Except.error GenError.invalidNodeId ∧
    TwoWord.NewGenerator 1023 TwitterEpoch =
      Except.ok ⟨TwitterEpoch, 1023 * 4096, 0, 0⟩ ∧
    Packed.NewGenerator 1023 TwitterEpoch =
      Except.ok ⟨TwitterEpoch, 1023 * 4096, 0⟩ := by
  refine ⟨?_, ?_, ?_, ?_, ?_, ?_⟩ <;> decide

/-- C9: whenever either `Generate` variant fails with the clock-rollback
error, the returned identifier value is `0` and the generator state is
exactly what it was before the call. -/
theorem generate_clockRollback_pure :
    (∀ (g g' : TwoWord.SnowflakeGenerator) (clocks : List ℤ) (r : GenReturn),
      TwoWord.Generate g clocks = some (r, g') →
      r.err = some GenError.clockRollback → r.id = 0 ∧ g' = g) ∧
    (∀ (g g' : Packed.SnowflakeGenerator) (clocks : List ℤ) (r : GenReturn),
      Packed.Generate g clocks = some (r, g') →
      r.err = some GenError.clockRollback → r.id = 0 ∧ g' = g) := by
  constructor
  · intro g g' clocks r h herr
    rcases TwoWord.generate_spec g clocks r g' h with ⟨rfl, rfl⟩ | ⟨he, _⟩
    · exact ⟨rfl, rfl⟩
    · rw [he] at herr
      exact Option.noConfusion herr
  · intro g g' clocks r h herr
    rcases Packed.generateLoop_spec g clocks.length clocks r g' h with
      ⟨rfl, rfl⟩ | ⟨he, _⟩
    · exact ⟨rfl, rfl⟩
    · rw [he] at herr
      exact Option.noConfusion herr

/-- C5: for two consecutive successful `Generate` calls on the same
generator (either variant) whose identifiers carry equal relative
timestamps, the second call's sequence is exactly the first call's sequence
plus one; and a successful call whose timestamp differs from the previous
recorded one (the first call of its millisecond) carries sequence 0. -/
theorem generate_same_ms_sequence :
    (∀ (g g₁ g₂ : TwoWord.SnowflakeGenerator) (nodeId : ℤ)
        (c₁ c₂ : List ℤ) (r₁ r₂ : GenReturn),
      TwoWord.Inv g → g.shiftedNid = nodeId <<< snowflakeNodeIdShift →
      0 ≤ nodeId → nodeId < 1024 →
      TwoWord.Generate g c₁ = some (r₁, g₁) → r₁.err = none →
      TwoWord.Generate g₁ c₂ = some (r₂, g₂) → r₂.err = none →
      (GetTimestampRaw r₂.id = GetTimestampRaw r₁.id →
        GetSeq r₂.id = GetSeq r₁.id + 1) ∧
      (GetTimestampRaw r₂.id ≠ GetTimestampRaw r₁.id → GetSeq r₂.id = 0)) ∧
    (∀ (g g₁ g₂ : Packed.SnowflakeGenerator) (nodeId : ℤ)
        (c₁ c₂ : List ℤ) (r₁ r₂ : GenReturn),
      Packed.Inv g → g.shiftedNid = nodeId <<< snowflakeNodeIdShift →
      0 ≤ nodeId → nodeId < 1024 →
      Packed.Generate g c₁ = some (r₁, g₁) → r₁.err = none →
      Packed.Generate g₁ c₂ = some (r₂, g₂) → r₂.err = none →
      (GetTimestampRaw r₂.id = GetTimestampRaw r₁.id →
        GetSeq r₂.id = GetSeq r₁.id + 1) ∧
      (GetTimestampRaw r₂.id ≠ GetTimestampRaw r₁.id → GetSeq r₂.id = 0)) := by
  constructor
  · intro g g₁ g₂ nodeId c₁ c₂ r₁ r₂ hinv hnid hn0 hn h₁ he₁ h₂ he₂
    obtain ⟨hts₁, hsq₁, _, hnb₁, _, _⟩ :=
      TwoWord.generate_success_decode_tw hinv hnid hn0 hn h₁ he₁
    have hinv₁ := TwoWord.generate_inv_tw hinv h₁
    have hnid₁ : g₁.shiftedNid = nodeId <<< snowflakeNodeIdShift := by
      rw [hnb₁, hnid]
    obtain ⟨hts₂, hsq₂, _, _, _, hcase⟩ :=
      TwoWord.generate_success_decode_tw hinv₁ hnid₁ hn0 hn h₂ he₂
    constructor
    · intro heq
      rcases hcase with ⟨hl, hs⟩ | ⟨hl, hs⟩
      · rw [hsq₂, hs, ← hsq₁]
      · exact absurd (by rw [hts₂, hts₁] at heq; exact heq)
          (ne_of_gt hl)
    · intro hne
      rcases hcase with ⟨hl, hs⟩ | ⟨hl, hs⟩
      · exact absurd (by rw [hts₂, hl, ← hts₁]) hne
      · rw [hsq₂, hs]
  · intro g g₁ g₂ nodeId c₁ c₂ r₁ r₂ hinv hnid hn0 hn h₁ he₁ h₂ he₂
    obtain ⟨hts₁, hsq₁, _, hnb₁, _, _⟩ :=
      Packed.generate_success_decode_pk hinv hnid hn0 hn h₁ he₁
    have hinv₁ := Packed.generate_inv_pk hinv h₁
    have hnid₁ : g₁.shiftedNid = nodeId <<< snowflakeNodeIdShift := by
      rw [hnb₁, hnid]
    obtain ⟨hts₂, hsq₂, _, _, _, hcase⟩ :=
      Packed.generate_success_decode_pk hinv₁ hnid₁ hn0 hn h₂ he₂
    constructor
    · intro heq
      rcases hcase with ⟨hl, hs⟩ | ⟨hl, hs⟩
      · rw [hsq₂, hs, ← hsq₁]
      · exact absurd (by rw [hts₂, hts₁] at heq; exact heq)
          (ne_of_gt hl)
    · intro hne
      rcases hcase with ⟨hl, hs⟩ | ⟨hl, hs⟩
      · exact absurd (by rw [hts₂, hl, ← hts₁]) hne
      · rw [hsq₂, hs]

/-- C6: when the recorded sequence of the current millisecond is exhausted
(equals 4095), a successful `Generate` call (either variant) never returns
an identifier in that millisecond: its timestamp strictly exceeds the
recorded timestamp and its sequence restarts at 0; and no successful call
ever carries a sequence outside `[0, 4095]`. -/
theorem generate_exhaustion_rollover :
    (∀ (g g' : TwoWord.SnowflakeGenerator) (nodeId : ℤ) (clocks : List ℤ)
        (r : GenReturn),
      TwoWord.Inv g → g.shiftedNid = nodeId <<< snowflakeNodeIdShift →
      0 ≤ nodeId → nodeId < 1024 →
      TwoWord.Generate g clocks = some (r, g') → r.err = none →
      (g.seq = 4095 →
        g.lts < GetTimestampRaw r.id ∧ GetSeq r.id = 0) ∧
      0 ≤ GetSeq r.id ∧ GetSeq r.id ≤ 4095) ∧
    (∀ (g g' : Packed.SnowflakeGenerator) (nodeId : ℤ) (clocks : List ℤ)
        (r : GenReturn),
      Packed.Inv g → g.shiftedNid = nodeId <<< snowflakeNodeIdShift →
      0 ≤ nodeId → nodeId < 1024 →
      Packed.Generate g clocks = some (r, g') → r.err = none →
      (Packed.stateSeq g.state = 4095 →
        Packed.stateTs g.state < GetTimestampRaw r.id ∧ GetSeq r.id = 0) ∧
      0 ≤ GetSeq r.id ∧ GetSeq r.id ≤ 4095) := by
  constructor
  · intro g g' nodeId clocks r hinv hnid hn0 hn h herr
    obtain ⟨hts, hsq, _, _, _, hcase⟩ :=
      TwoWord.generate_success_decode_tw hinv hnid hn0 hn h herr
    obtain ⟨hl', hs0', hs'⟩ := TwoWord.generate_inv_tw hinv h
    refine ⟨?_, by omega, by omega⟩
    intro hex
    rcases hcase with ⟨hl, hs⟩ | ⟨hl, hs⟩
    · rw [hex] at hs
      omega
    · exact ⟨by omega, by omega⟩
  · intro g g' nodeId clocks r hinv hnid hn0 hn h herr
    obtain ⟨hts, hsq, _, _, _, hcase⟩ :=
      Packed.generate_success_decode_pk hinv hnid hn0 hn h herr
    obtain ⟨hl', hs0', hs', _⟩ := Packed.Inv_decode (Packed.generate_inv_pk hinv h)
    refine ⟨?_, by omega, by omega⟩
    intro hex
    rcases hcase with ⟨hl, hs⟩ | ⟨hl, hs⟩
    · rw [hex] at hs
      omega
    · exact ⟨by omega, by omega⟩

/-- C4: every identifier returned by a successful `Generate` call (either
variant, on a generator whose node id is in range and whose recorded and
observed timestamps fit in 41 bits) equals
`(ts << 22) | (nodeId << 12) | seq` with `0 ≤ ts < 2 ^ 41`,
`0 ≤ nodeId < 1024` and `0 ≤ seq ≤ 4095`, and the three codec accessors
recover exactly those fields from their bit ranges. -/
theorem generate_id_bit_layout :
    (∀ (g g' : TwoWord.SnowflakeGenerator) (nodeId : ℤ) (clocks : List ℤ)
        (r : GenReturn),
      TwoWord.Inv g → g.shiftedNid = nodeId <<< snowflakeNodeIdShift →
      0 ≤ nodeId → nodeId < 1024 →
      g.lts < 2 ^ 41 → (∀ now ∈ clocks, now - g.tsepoch < 2 ^ 41) →
      TwoWord.Generate g clocks = some (r, g') → r.err = none →
      ∃ ts seq : ℤ, 0 ≤ ts ∧ ts < 2 ^ 41 ∧ 0 ≤ seq ∧ seq ≤ 4095 ∧
        r.id = packId ts (nodeId <<< snowflakeNodeIdShift) seq ∧
        GetTimestampRaw r.id = ts ∧ GetNodeId r.id = nodeId ∧
        GetSeq r.id = seq) ∧
    (∀ (g g' : Packed.SnowflakeGenerator) (nodeId : ℤ) (clocks : List ℤ)
        (r : GenReturn),
      Packed.Inv g → g.shiftedNid = nodeId <<< snowflakeNodeIdShift →
      0 ≤ nodeId → nodeId < 1024 →
      Packed.stateTs g.state < 2 ^ 41 →
      (∀ now ∈ clocks, now - g.tsepoch < 2 ^ 41) →
      Packed.Generate g clocks = some (r, g') → r.err = none →
      ∃ ts seq : ℤ, 0 ≤ ts ∧ ts < 2 ^ 41 ∧ 0 ≤ seq ∧ seq ≤ 4095 ∧
        r.id = packId ts (nodeId <<< snowflakeNodeIdShift) seq ∧
        GetTimestampRaw r.id = ts ∧ GetNodeId r.id = nodeId ∧
        GetSeq r.id = seq) := by
  constructor
  · intro g g' nodeId clocks r hinv hnid hn0 hn h41 hclk h herr
    obtain ⟨h1, h2, h3⟩ := hinv
    rcases TwoWord.generate_spec g clocks r g' h with ⟨rfl, _⟩ |
      ⟨_, _, _, ⟨hm, hid, _, _⟩ | ⟨now, hmem, hlt, hid, _, _⟩⟩
    · simp at herr
    · rw [mask_eq'] at hm
      refine ⟨g.lts, g.seq + 1, h1, h41, by omega, by omega, by rw [hid, hnid],
        ?_, ?_, ?_⟩
      · rw [hid, hnid, GetTimestampRaw_packId h1 hn0 hn (by omega) (by omega)]
      · rw [hid, hnid, GetNodeId_packId h1 hn0 hn (by omega) (by omega)]
      · rw [hid, hnid, GetSeq_packId h1 hn0 hn (by omega) (by omega)]
    · have hb := hclk now hmem
      refine ⟨now - g.tsepoch, 0, by omega, hb, le_refl 0, by norm_num,
        by rw [hid, hnid], ?_, ?_, ?_⟩
      · rw [hid, hnid,
          GetTimestampRaw_packId (by omega) hn0 hn (le_refl 0) (by norm_num)]
      · rw [hid, hnid,
          GetNodeId_packId (by omega) hn0 hn (le_refl 0) (by norm_num)]
      · rw [hid, hnid,
          GetSeq_packId (by omega) hn0 hn (le_refl 0) (by norm_num)]
  · intro g g' nodeId clocks r hinv hnid hn0 hn h41 hclk h herr
    obtain ⟨h1, h2, h3, _⟩ := Packed.Inv_decode hinv
    rcases Packed.generateLoop_spec g clocks.length clocks r g' h with
      ⟨rfl, _⟩ | ⟨_, _, _, ⟨hm, hid, _⟩ | ⟨now, hmem, hlt, hid, _⟩⟩
    · simp at herr
    · rw [mask_eq'] at hm
      refine ⟨Packed.stateTs g.state, Packed.stateSeq g.state + 1, h1, h41,
        by omega, by omega, by rw [hid, hnid], ?_, ?_, ?_⟩
      · rw [hid, hnid, GetTimestampRaw_packId h1 hn0 hn (by omega) (by omega)]
      · rw [hid, hnid, GetNodeId_packId h1 hn0 hn (by omega) (by omega)]
      · rw [hid, hnid, GetSeq_packId h1 hn0 hn (by omega) (by omega)]
    · have hb := hclk now hmem
      refine ⟨now - g.tsepoch, 0, by omega, hb, le_refl 0, by norm_num,
        by rw [hid, hnid], ?_, ?_, ?_⟩
      · rw [hid, hnid,
          GetTimestampRaw_packId (by omega) hn0 hn (le_refl 0) (by norm_num)]
      · rw [hid, hnid,
          GetNodeId_packId (by omega) hn0 hn (le_refl 0) (by norm_num)]
      · rw [hid, hnid,
          GetSeq_packId (by omega) hn0 hn (le_refl 0) (by norm_num)]

theorem TwoWord.runGenerate_chain_tw {nodeId : ℤ} (hn0 : 0 ≤ nodeId)
    (hn : nodeId < 1024) :
    ∀ (css : List (List ℤ)) (g : TwoWord.SnowflakeGenerator),
      TwoWord.Inv g → g.shiftedNid = nodeId <<< snowflakeNodeIdShift →
      List.Chain' lexStep
        ((g.lts, g.seq) :: successPairs (TwoWord.runGenerate g css)) := by
  intro css
  induction css with
  | nil =>
    intro g _ _
    simp [TwoWord.runGenerate, successPairs]
  | cons cs css ih =>
    intro g hinv hnid
    cases hgen : TwoWord.Generate g cs with
    | none => simp [TwoWord.runGenerate, hgen, successPairs]
    | some p =>
      obtain ⟨r, g'⟩ := p
      have hrun : TwoWord.runGenerate g (cs :: css) =
          (r, g') :: TwoWord.runGenerate g' css := by
        simp [TwoWord.runGenerate, hgen]
      rw [hrun]
      by_cases herr : r.err = none
      · obtain ⟨hts, hsq, _, hnb, _, hcase⟩ :=
          TwoWord.generate_success_decode_tw hinv hnid hn0 hn hgen herr
        have hinv' := TwoWord.generate_inv_tw hinv hgen
        have ih' := ih g' hinv' (by rw [hnb, hnid])
        have hpair :
            successPairs ((r, g') :: TwoWord.runGenerate g' css) =
              (g'.lts, g'.seq) :: successPairs (TwoWord.runGenerate g' css) := by
          simp [successPairs, List.filterMap_cons, herr, hts, hsq]
        rw [hpair]
        refine List.chain'_cons.mpr ⟨?_, ih'⟩
        rcases hcase with ⟨hl, hs⟩ | ⟨hl, hs⟩
        · exact Or.inl ⟨hl, hs⟩
        · exact Or.inr hl
      · have hg' : g' = g := by
          rcases TwoWord.generate_spec g cs r g' hgen with ⟨_, h2⟩ | ⟨he, _⟩
          · exact h2
          · exact absurd he herr
        have hpair :
            successPairs ((r, g') :: TwoWord.runGenerate g' css) =
              successPairs (TwoWord.runGenerate g' css) := by
          simp [successPairs, List.filterMap_cons, herr]
        rw [hpair, hg']
        exact ih g hinv hnid

theorem Packed.runGenerate_chain_pk {nodeId : ℤ} (hn0 : 0 ≤ nodeId)
    (hn : nodeId < 1024) :
    ∀ (css : List (List ℤ)) (g : Packed.SnowflakeGenerator),
      Packed.Inv g → g.shiftedNid = nodeId <<< snowflakeNodeIdShift →
      List.Chain' lexStep
        ((Packed.stateTs g.state, Packed.stateSeq g.state) ::
          successPairs (Packed.runGenerate g css)) := by
  intro css
  induction css with
  | nil =>
    intro g _ _
    simp [Packed.runGenerate, successPairs]
  | cons cs css ih =>
    intro g hinv hnid
    cases hgen : Packed.Generate g cs with
    | none => simp [Packed.runGenerate, hgen, successPairs]
    | some p =>
      obtain ⟨r, g'⟩ := p
      have hrun : Packed.runGenerate g (cs :: css) =
          (r, g') :: Packed.runGenerate g' css := by
        simp [Packed.runGenerate, hgen]
      rw [hrun]
      by_cases herr : r.err = none
      · obtain ⟨hts, hsq, _, hnb, _, hcase⟩ :=
          Packed.generate_success_decode_pk hinv hnid hn0 hn hgen herr
        have hinv' := Packed.generate_inv_pk hinv hgen
        have ih' := ih g' hinv' (by rw [hnb, hnid])
        have hpair :
            successPairs ((r, g') :: Packed.runGenerate g' css) =
              (Packed.stateTs g'.state, Packed.stateSeq g'.state) ::
                successPairs (Packed.runGenerate g' css) := by
          simp [successPairs, List.filterMap_cons, herr, hts, hsq]
        rw [hpair]
        refine List.chain'_cons.mpr ⟨?_, ih'⟩
        rcases hcase with ⟨hl, hs⟩ | ⟨hl, hs⟩
        · exact Or.inl ⟨hl, hs⟩
        · exact Or.inr hl
      · have hg' : g' = g := by
          rcases Packed.generateLoop_spec g cs.length cs r g' hgen with
            ⟨_, h2⟩ | ⟨he, _⟩
          · exact h2
          · exact absurd he herr
        have hpair :
            successPairs ((r, g') :: Packed.runGenerate g' css) =
              successPairs (Packed.runGenerate g' css) := by
          simp [successPairs, List.filterMap_cons, herr]
        rw [hpair, hg']
        exact ih g hinv hnid

/-- C1: over any serialized sequence of `Generate` calls on a single
generator instance (either variant), the decoded
`(relative timestamp, sequence)` pairs of the successfully returned
identifiers satisfy, between each consecutive pair, exactly the step the
claim states: either the timestamp is unchanged and the sequence is the
previous sequence plus one, or the timestamp strictly increases — hence the
pairs are non-decreasing lexicographically. -/
theorem generate_monotone_lexicographic :
    (∀ (nodeId : ℤ) (g : TwoWord.SnowflakeGenerator) (css : List (List ℤ)),
      0 ≤ nodeId → nodeId < 1024 → TwoWord.Inv g →
      g.shiftedNid = nodeId <<< snowflakeNodeIdShift →
      List.Chain' lexStep (successPairs (TwoWord.runGenerate g css))) ∧
    (∀ (nodeId : ℤ) (g : Packed.SnowflakeGenerator) (css : List (List ℤ)),
      0 ≤ nodeId → nodeId < 1024 → Packed.Inv g →
      g.shiftedNid = nodeId <<< snowflakeNodeIdShift →
      List.Chain' lexStep (successPairs (Packed.runGenerate g css))) := by
  constructor
  · intro nodeId g css hn0 hn hinv hnid
    exact (TwoWord.runGenerate_chain_tw hn0 hn css g hinv hnid).tail
  · intro nodeId g css hn0 hn hinv hnid
    exact (Packed.runGenerate_chain_pk hn0 hn css g hinv hnid).tail

theorem TwoWord.generate_cons (g : TwoWord.SnowflakeGenerator) (now : ℤ)
    (rest : List ℤ) :
    TwoWord.Generate g (now :: rest) =
      (if now - g.tsepoch < g.lts then
        some (⟨0, some GenError.clockRollback⟩, g)
      else if now - g.tsepoch = g.lts then
        (if g.seq = snowflakeSequenceMask then TwoWord.Generate g rest
        else
          some (⟨packId (now - g.tsepoch) g.shiftedNid (g.seq + 1), none⟩,
            { g with seq := g.seq + 1 }))
      else
        some (⟨packId (now - g.tsepoch) g.shiftedNid 0, none⟩,
          { g with lts := now - g.tsepoch, seq := 0 })) := rfl

theorem Packed.generateLoop_cons_no_rollback (g : Packed.SnowflakeGenerator)
    (fuel : ℕ) (now : ℤ) (rest : List ℤ)
    (hno : Packed.stateTs g.state ≤ now - g.tsepoch) :
    Packed.generateLoop g (fuel + 1) (now :: rest) =
      (if now - g.tsepoch = Packed.stateTs g.state then
        (if Packed.stateSeq g.state = snowflakeSequenceMask then
          Packed.generateLoop g fuel rest
        else
          some (⟨packId (Packed.stateTs g.state) g.shiftedNid
              (Packed.stateSeq g.state + 1), none⟩,
            { g with state := packState (Packed.stateTs g.state) (Packed.stateSeq g.state + 1) }))
      else
        some (⟨packId (now - g.tsepoch) g.shiftedNid 0, none⟩,
          { g with state := packState (now - g.tsepoch) 0 })) := by
  have hcond : ¬ (now - g.tsepoch < Packed.stateTs g.state) := not_lt.mpr hno
  simp only [Packed.generateLoop]
  rw [if_neg hcond]
  dsimp only
  rw [if_neg hcond]
  rfl

/-- C8, amended: starting from corresponding states (`Corr`) and fed clock
readings that never fall behind the recorded timestamp, the two `Generate`
implementations either both run out of modelled readings or return the same
identifier-and-error pair and end in corresponding states.  (The claim as
originally stated fails on clock rollback, where the two-word variant fails
immediately and the packed one polls; see the counterexample.) -/
theorem generate_variants_equiv_no_rollback :
    ∀ (clocks : List ℤ) (tw : TwoWord.SnowflakeGenerator)
      (pk : Packed.SnowflakeGenerator),
      Corr tw pk → TwoWord.Inv tw →
      (∀ c ∈ clocks, tw.lts ≤ c - tw.tsepoch) →
      (TwoWord.Generate tw clocks = none ∧
        Packed.Generate pk clocks = none) ∨
      (∃ r tw' pk', TwoWord.Generate tw clocks = some (r, tw') ∧
        Packed.Generate pk clocks = some (r, pk') ∧ Corr tw' pk' ∧
        TwoWord.Inv tw') := by
  intro clocks
  induction clocks with
  | nil =>
    intro tw pk _ _ _
    exact Or.inl ⟨rfl, rfl⟩
  | cons now rest ih =>
    intro tw pk hc hinv hno
    obtain ⟨hep, hnb, hst⟩ := hc
    obtain ⟨h1, h2, h3⟩ := hinv
    have hts : Packed.stateTs pk.state = tw.lts := by
      rw [hst]; exact stateTs_eq h1 h2 (by omega)
    have hsq : Packed.stateSeq pk.state = tw.seq := by
      rw [hst]; exact stateSeq_eq h1 h2 (by omega)
    have hrel : tw.lts ≤ now - tw.tsepoch := hno now (List.mem_cons_self _ _)
    have hPK : Packed.Generate pk (now :: rest) =
        Packed.generateLoop pk (rest.length + 1) (now :: rest) := by
      simp [Packed.Generate]
    rw [TwoWord.generate_cons, hPK,
      Packed.generateLoop_cons_no_rollback pk rest.length now rest
        (by rw [hts, ← hep]; exact hrel),
      hts, hsq, ← hep, ← hnb]
    rw [if_neg (not_lt.mpr hrel)]
    by_cases heq : now - tw.tsepoch = tw.lts
    · rw [if_pos heq, if_pos heq]
      by_cases hmask : tw.seq = snowflakeSequenceMask
      · rw [if_pos hmask, if_pos hmask]
        exact ih tw pk ⟨hep, hnb, hst⟩ ⟨h1, h2, h3⟩
          (fun c hc => hno c (List.mem_cons_of_mem _ hc))
      · rw [if_neg hmask, if_neg hmask, heq]
        rw [mask_eq'] at hmask
        refine Or.inr ⟨⟨packId tw.lts tw.shiftedNid (tw.seq + 1), none⟩,
          { tw with seq := tw.seq + 1 },
          ⟨tw.tsepoch, tw.shiftedNid, packState tw.lts (tw.seq + 1)⟩,
          rfl, rfl, ⟨rfl, rfl, ?_⟩, ?_, ?_, ?_⟩
        · show packState tw.lts (tw.seq + 1) = tw.lts * 4096 + (tw.seq + 1)
          exact packState_eq h1 (by omega) (by omega)
        · exact h1
        · show (0 : ℤ) ≤ tw.seq + 1
          omega
        · show tw.seq + 1 ≤ 4095
          omega
    · rw [if_neg heq, if_neg heq]
      refine Or.inr ⟨⟨packId (now - tw.tsepoch) tw.shiftedNid 0, none⟩,
        { tw with lts := now - tw.tsepoch, seq := 0 },
        ⟨tw.tsepoch, tw.shiftedNid, packState (now - tw.tsepoch) 0⟩,
        rfl, rfl, ⟨rfl, rfl, ?_⟩, ?_, ?_, ?_⟩
      · show packState (now - tw.tsepoch) 0 = (now - tw.tsepoch) * 4096 + 0
        exact packState_eq (by omega) (le_refl 0) (by norm_num)
      · show (0 : ℤ) ≤ now - tw.tsepoch
        omega
      · exact le_refl 0
      · show (0 : ℤ) ≤ 4095
        norm_num

/-- C8, counterexample: the two implementations are not observationally
equivalent.  From the corresponding reachable states recording timestamp 10
and sequence 0 (two-word `lts = 10, seq = 0`; packed
`state = 10 * 4096 = 40960`), fed the same clock readings `[9, 10]` (the
clock rolled back 1 ms and catches up at the next poll), the two-word
`Generate` fails with `ClockRollback` while the packed `Generate` waits out
the rollback and returns identifier `41947137`. -/
theorem generate_variants_not_equivalent :
    Corr ⟨0, 4096, 10, 0⟩ ⟨0, 4096, 40960⟩ ∧
    TwoWord.Generate ⟨0, 4096, 10, 0⟩ [9, 10] =
      some (⟨0, some GenError.clockRollback⟩, ⟨0, 4096, 10, 0⟩) ∧
    Packed.Generate ⟨0, 4096, 40960⟩ [9, 10] =
      some (⟨41947137, none⟩, ⟨0, 4096, 40961⟩) ∧
    (⟨0, some GenError.clockRollback⟩ : GenReturn) ≠ ⟨41947137, none⟩ := by
  refine ⟨⟨rfl, rfl, by norm_num⟩, by decide, by decide, by decide⟩

/-- C3, counterexample: the claim's polling behaviour does not hold of the
two-word implementation.  From the state recording timestamp 10 and
sequence 0 (reachable from a fresh generator by one successful call at
reading 10, third conjunct), with clock readings `[9, 10]` — the clock is
1 ms behind and catches up at the very next millisecond, well inside any
15 ms tolerance window — the two-word `Generate` returns `ClockRollback`
immediately without consuming the second reading, while the packed variant
(second conjunct) polls and succeeds. -/
theorem twoWord_rollback_fails_immediately :
    TwoWord.Generate ⟨0, 4096, 10, 0⟩ [9, 10] =
      some (⟨0, some GenError.clockRollback⟩, ⟨0, 4096, 10, 0⟩) ∧
    Packed.Generate ⟨0, 4096, 40960⟩ [9, 10] =
      some (⟨41947137, none⟩, ⟨0, 4096, 40961⟩) ∧
    TwoWord.Generate ⟨0, 4096, 0, 0⟩ [10] =
      some (⟨41947136, none⟩, ⟨0, 4096, 10, 0⟩) := by
  refine ⟨?_, ?_, ?_⟩ <;> decide

/-- C3, amended: on observing a relative timestamp below the recorded one,
the packed implementation polls the clock (consuming up to
`rollbackWaitPolls` further readings) and fails with `ClockRollback` exactly
if the clock has not caught up when the window closes, while the two-word
implementation fails with `ClockRollback` immediately; in either variant a
successful call never returns an identifier whose timestamp field is below
the recorded timestamp. -/
theorem generate_clock_rollback_handling :
    (∀ (g : TwoWord.SnowflakeGenerator) (now : ℤ) (rest : List ℤ),
      now - g.tsepoch < g.lts →
      TwoWord.Generate g (now :: rest) =
        some (⟨0, some GenError.clockRollback⟩, g)) ∧
    (∀ (g : Packed.SnowflakeGenerator) (now rel' : ℤ) (rest rest' : List ℤ),
      now - g.tsepoch < Packed.stateTs g.state →
      Packed.rollbackWait g.tsepoch (Packed.stateTs g.state)
        Packed.rollbackWaitPolls (now - g.tsepoch) rest = some (rel', rest') →
      rel' < Packed.stateTs g.state →
      Packed.Generate g (now :: rest) =
        some (⟨0, some GenError.clockRollback⟩, g)) ∧
    (∀ (g : Packed.SnowflakeGenerator) (now rel' : ℤ) (rest rest' : List ℤ),
      now - g.tsepoch < Packed.stateTs g.state →
      Packed.rollbackWait g.tsepoch (Packed.stateTs g.state)
        Packed.rollbackWaitPolls (now - g.tsepoch) rest = some (rel', rest') →
      Packed.stateTs g.state ≤ rel' →
      Packed.stateSeq g.state ≠ snowflakeSequenceMask →
      ∃ r g', Packed.Generate g (now :: rest) = some (r, g') ∧
        r.err = none) ∧
    (∀ (g g' : TwoWord.SnowflakeGenerator) (nodeId : ℤ) (clocks : List ℤ)
        (r : GenReturn),
      TwoWord.Inv g → g.shiftedNid = nodeId <<< snowflakeNodeIdShift →
      0 ≤ nodeId → nodeId < 1024 →
      TwoWord.Generate g clocks = some (r, g') → r.err = none →
      g.lts ≤ GetTimestampRaw r.id) ∧
    (∀ (g g' : Packed.SnowflakeGenerator) (nodeId : ℤ) (clocks : List ℤ)
        (r : GenReturn),
      Packed.Inv g → g.shiftedNid = nodeId <<< snowflakeNodeIdShift →
      0 ≤ nodeId → nodeId < 1024 →
      Packed.Generate g clocks = some (r, g') → r.err = none →
      Packed.stateTs g.state ≤ GetTimestampRaw r.id) := by
  refine ⟨?_, ?_, ?_, ?_, ?_⟩
  · intro g now rest hlt
    rw [TwoWord.generate_cons, if_pos hlt]
  · intro g now rel' rest rest' hlt hw hrel
    show Packed.generateLoop g (now :: rest).length (now :: rest) = _
    rw [List.length_cons]
    simp only [Packed.generateLoop]
    rw [if_pos hlt]
    simp only [hw]
    rw [if_pos hrel]
  · intro g now rel' rest rest' hlt hw hrel hmask
    show ∃ r g', Packed.generateLoop g (now :: rest).length (now :: rest) =
      some (r, g') ∧ r.err = none
    rw [List.length_cons]
    simp only [Packed.generateLoop]
    rw [if_pos hlt]
    simp only [hw]
    rw [if_neg (not_lt.mpr hrel)]
    by_cases heq : rel' = Packed.stateTs g.state
    · rw [if_pos heq, if_neg hmask]
      exact ⟨_, _, rfl, rfl⟩
    · rw [if_neg heq]
      exact ⟨_, _, rfl, rfl⟩
  · intro g g' nodeId clocks r hinv hnid hn0 hn h herr
    obtain ⟨hts, _, _, _, _, hcase⟩ :=
      TwoWord.generate_success_decode_tw hinv hnid hn0 hn h herr
    rcases hcase with ⟨hl, _⟩ | ⟨hl, _⟩ <;> omega
  · intro g g' nodeId clocks r hinv hnid hn0 hn h herr
    obtain ⟨hts, _, _, _, _, hcase⟩ :=
      Packed.generate_success_decode_pk hinv hnid hn0 hn h herr
    rcases hcase with ⟨hl, _⟩ | ⟨hl, _⟩ <;> omega

/-- C7: the uniqueness claim fails on the two-word implementation of
`src/snowflake_generator.go`: its `Generate` performs two separate atomic
updates (a CAS on `lts`, then a plain store of `seq := 0`), so a caller
that wins the `lts` CAS and is preempted before the store does not
constitute a single winning CAS ordering all calls.  In the interleaved
run below, six concurrent callers on a fresh generator (node id 1) all
return successfully, but the fourth and sixth caller both return identifier
`8392706 = (2 << 22) | (1 << 12) | 2`: a duplicate.  Readings: two callers
at millisecond 1, four at millisecond 2; the third caller wins the `lts`
CAS for millisecond 2 and is preempted before resetting `seq`, the fourth
increments the stale `seq` to 2, the reset then makes the sixth reuse it. -/
theorem twoWord_concurrent_duplicate_identifiers :
    TwoWordConc.doneIds (TwoWordConc.run
      { tsepoch := 0, shiftedNid := 4096, lts := 0, seq := 0
        threads := [⟨TwoWordConc.TPC.start, [1]⟩, ⟨TwoWordConc.TPC.start, [1]⟩,
          ⟨TwoWordConc.TPC.start, [2]⟩, ⟨TwoWordConc.TPC.start, [2]⟩,
          ⟨TwoWordConc.TPC.start, [2]⟩, ⟨TwoWordConc.TPC.start, [2]⟩] }
      [0, 0, 0, 0, 1, 1, 1, 2, 2, 2, 3, 3, 3, 2, 4, 4, 4, 5, 5, 5]) =
      [4198400, 4198401, 8392704, 8392706, 8392705, 8392706] ∧
    ¬ ([4198400, 4198401, 8392704, 8392706, 8392705,
      (8392706 : ℤ)]).Nodup := by
  constructor <;> decide

/-!
## Witnesses: the hypotheses of the claim theorems are satisfiable
-/

theorem generate_monotone_lexicographic_witness :
    List.Chain' lexStep
      (successPairs (TwoWord.runGenerate ⟨0, 4096, 0, 0⟩ [[5], [5]])) ∧
    List.Chain' lexStep
      (successPairs (Packed.runGenerate ⟨0, 4096, 0⟩ [[5], [5]])) :=
  ⟨generate_monotone_lexicographic.1 1 ⟨0, 4096, 0, 0⟩ [[5], [5]]
      (by norm_num) (by norm_num) ⟨le_refl 0, le_refl 0, by norm_num⟩
      (by decide),
    generate_monotone_lexicographic.2 1 ⟨0, 4096, 0⟩ [[5], [5]]
      (by norm_num) (by norm_num)
      ⟨0, 0, le_refl 0, le_refl 0, by norm_num, by norm_num⟩ (by decide)⟩

theorem generate_clock_rollback_handling_witness :
    TwoWord.Generate ⟨0, 4096, 10, 0⟩ [9] =
      some (⟨0, some GenError.clockRollback⟩, ⟨0, 4096, 10, 0⟩) ∧
    Packed.Generate ⟨0, 4096, 40960⟩ (9 :: List.replicate 15 9) =
      some (⟨0, some GenError.clockRollback⟩, ⟨0, 4096, 40960⟩) ∧
    (∃ r g', Packed.Generate ⟨0, 4096, 40960⟩ (9 :: [10]) = some (r, g') ∧
      r.err = none) :=
  ⟨generate_clock_rollback_handling.1 ⟨0, 4096, 10, 0⟩ 9 [] (by decide),
    generate_clock_rollback_handling.2.1 ⟨0, 4096, 40960⟩ 9 9
      (List.replicate 15 9) [] (by decide) (by decide) (by decide),
    generate_clock_rollback_handling.2.2.1 ⟨0, 4096, 40960⟩ 9 10 [10] []
      (by decide) (by decide) (by decide) (by decide)⟩

theorem generate_id_bit_layout_witness :
    ∃ ts seq : ℤ, 0 ≤ ts ∧ ts < 2 ^ 41 ∧ 0 ≤ seq ∧ seq ≤ 4095 ∧
      (20975616 : ℤ) = packId ts ((1 : ℤ) <<< snowflakeNodeIdShift) seq ∧
      GetTimestampRaw 20975616 = ts ∧ GetNodeId 20975616 = 1 ∧
      GetSeq 20975616 = seq :=
  generate_id_bit_layout.1 ⟨0, 4096, 0, 0⟩ ⟨0, 4096, 5, 0⟩ 1 [5]
    ⟨20975616, none⟩ ⟨le_refl 0, le_refl 0, by norm_num⟩ (by decide)
    (by norm_num) (by norm_num) (by norm_num) (by decide) (by decide) rfl

theorem generate_same_ms_sequence_witness :
    (GetTimestampRaw 20975617 = GetTimestampRaw 20975616 →
      GetSeq 20975617 = GetSeq 20975616 + 1) ∧
    (GetTimestampRaw 20975617 ≠ GetTimestampRaw 20975616 →
      GetSeq 20975617 = 0) :=
  generate_same_ms_sequence.1 ⟨0, 4096, 0, 0⟩ ⟨0, 4096, 5, 0⟩ ⟨0, 4096, 5, 1⟩
    1 [5] [5] ⟨20975616, none⟩ ⟨20975617, none⟩
    ⟨le_refl 0, le_refl 0, by norm_num⟩ (by decide) (by norm_num) (by norm_num)
    (by decide) rfl (by decide) rfl

theorem generate_exhaustion_rollover_witness :
    ((4095 : ℤ) = 4095 →
      (5 : ℤ) < GetTimestampRaw 25169920 ∧ GetSeq 25169920 = 0) ∧
    (0 : ℤ) ≤ GetSeq 25169920 ∧ GetSeq 25169920 ≤ 4095 :=
  generate_exhaustion_rollover.1 ⟨0, 4096, 5, 4095⟩ ⟨0, 4096, 6, 0⟩ 1 [5, 6]
    ⟨25169920, none⟩ ⟨by norm_num, by norm_num, le_refl 4095⟩ (by decide)
    (by norm_num) (by norm_num) (by decide) rfl

theorem generate_variants_equiv_no_rollback_witness :
    (TwoWord.Generate ⟨0, 4096, 0, 0⟩ [5] = none ∧
      Packed.Generate ⟨0, 4096, 0⟩ [5] = none) ∨
    (∃ r tw' pk', TwoWord.Generate ⟨0, 4096, 0, 0⟩ [5] = some (r, tw') ∧
      Packed.Generate ⟨0, 4096, 0⟩ [5] = some (r, pk') ∧ Corr tw' pk' ∧
      TwoWord.Inv tw') :=
  generate_variants_equiv_no_rollback [5] ⟨0, 4096, 0, 0⟩ ⟨0, 4096, 0⟩
    ⟨rfl, rfl, by norm_num⟩ ⟨le_refl 0, le_refl 0, by norm_num⟩ (by decide)

theorem generate_clockRollback_pure_witness :
    ((⟨0, some GenError.clockRollback⟩ : GenReturn).id = 0 ∧
      (⟨0, 4096, 10, 0⟩ : TwoWord.SnowflakeGenerator) = ⟨0, 4096, 10, 0⟩) ∧
    ((⟨0, some GenError.clockRollback⟩ : GenReturn).id = 0 ∧
      (⟨0, 4096, 40960⟩ : Packed.SnowflakeGenerator) = ⟨0, 4096, 40960⟩) :=
  ⟨generate_clockRollback_pure.1 ⟨0, 4096, 10, 0⟩ ⟨0, 4096, 10, 0⟩ [9]
      ⟨0, some GenError.clockRollback⟩ (by decide) rfl,
    generate_clockRollback_pure.2 ⟨0, 4096, 40960⟩ ⟨0, 4096, 40960⟩
      (List.replicate 16 9) ⟨0, some GenError.clockRollback⟩ (by decide) rfl⟩

end Snowflake
